import Mathlib

/-!
Shallow embedding of `src/mini_gold_spinner_reps.py` (K&K Atelier — Mini Gold
Spinner): the payout arithmetic, reputation tracking, wheel-spin state machine
and ledger-refresh logic, together with theorems checking the specification's
claims against these definitions.

Conventions of the embedding:
* Python floats are idealised as exact rationals (`ℚ`) except where a claim is
  about float evaluation itself; for that case an exact model of IEEE-754
  binary64 rounding (`toDouble`) is defined and used.
* Python's builtin `round` (banker's rounding, round-half-to-even) is embedded
  as `py_round`.
* The Shiny reactive cells become fields of an explicit `AppState`; each event
  handler becomes a state-transition function, with its random draws passed in
  as explicit parameters ranging over the draw's support.
-/

namespace MiniGoldSpinner

/-- `WHEEL_MULTS = [0.8, 0.9, 1.0, 1.1, 1.15, 1.2, 1.25, 1.3, 1.35, 1.4, 1.45, 1.5]`
(source line 27), decimal literals idealised as exact rationals. -/
def WHEEL_MULTS : List ℚ :=
  [8/10, 9/10, 1, 11/10, 115/100, 12/10, 125/100, 13/10, 135/100, 14/10, 145/100, 15/10]

/-- `TIER_NAMES` (source lines 28–32). -/
def TIER_NAMES : List String :=
  ["Dusting Dabbler","Curtain–Cord Wrangler","Tapestry Tender","Chandelier Charmer",
   "Parlour Perfectionist","Gilded Guilder","Salon Savant","Waterdhavian Tastemaker",
   "Noble–House Laureate","Master of Makeovers"]

/-- `BASE_CAP = 250` (source line 33). -/
def BASE_CAP : ℤ := 250

/-- `MIN_PAYOUT = 50` (source line 34). -/
def MIN_PAYOUT : ℤ := 50

/-- `def clamp(v, lo, hi): return max(lo, min(hi, v))` (source line 43); the
Python function is duck-typed, used both on ints and floats, so the embedding
is generic over a linear order. -/
def clamp {α : Type} [LinearOrder α] (v lo hi : α) : α := max lo (min hi v)

/-- `roll_to_base_gold` (source lines 45–47): clamp the roll to `[1, 30]`,
then `50.0 + (roll - 1) * 100.0 / 29.0`. -/
def roll_to_base_gold (roll : ℤ) : ℚ :=
  let r : ℤ := clamp roll 1 30
  50 + ((r : ℚ) - 1) * 100 / 29

/-- Python's builtin `round` with no `ndigits`: round to the nearest integer,
ties going to the even integer (banker's rounding). -/
def py_round (q : ℚ) : ℤ :=
  let f := ⌊q⌋
  let r := q - (f : ℚ)
  if r < 1/2 then f
  else if 1/2 < r then f + 1
  else if f % 2 = 0 then f else f + 1

/-- `narrative_bonus_pct` (source lines 428–436): collect the rate of each
checked flag into a list, then return `max(bonuses) if bonuses else 0.0`. -/
def narrative_bonus_pct (flair_pass flair_good flair_ex : Bool) : ℚ :=
  let bonuses : List ℚ :=
    (if flair_pass then [10/100] else []) ++
    (if flair_good then [15/100] else []) ++
    (if flair_ex then [25/100] else [])
  match bonuses with
  | [] => 0
  | b :: bs => bs.foldl max b

/-- The tier computation `min(jobs // 5, 9)` from `refresh_stats`
(source line 383). -/
def tier_for (jobs : ℕ) : ℕ := min (jobs / 5) 9

/-- The Shiny reactive cells of the app (source lines 148–156), gathered into
one explicit state record. `selected_index` starts as `None`; a valid value is
always an index into the 12-element `WHEEL_MULTS`, hence `Fin 12`. -/
structure AppState where
  selected_index : Option (Fin 12)
  last_angle : ℚ
  spin_token : Bool
  gs_status_msg : String
  agg_gold : ℤ
  agg_jobs : ℕ
  tier_idx : ℕ

/-- The initial values of the reactive cells (source lines 148–156). -/
def initState : AppState :=
  { selected_index := none, last_angle := 0, spin_token := false,
    gs_status_msg := "Not connected", agg_gold := 0, agg_jobs := 0, tier_idx := 0 }

/-- The `_spin` event handler (source lines 416–426). The two library draws
`random.randrange(12)` and `random.randint(4, 7)` are passed in as parameters
ranging exactly over their supports: `idx : Fin 12` and `4 + k` for `k : Fin 4`.
The handler sets the selection to `idx`, computes the display angle
`randint(4,7)*360 + (idx + 0.5)*(360/12)`, and leaves `spin_token` true (the
code toggles it false then true to retrigger the CSS animation). -/
def spinHandler (st : AppState) (idx : Fin 12) (k : Fin 4) : AppState :=
  let n : ℕ := WHEEL_MULTS.length
  let seg : ℚ := 360 / (n : ℚ)
  { st with
    selected_index := some idx,
    spin_token := true,
    last_angle := ((4 + (k : ℕ) : ℕ) : ℚ) * 360 + (((idx : ℕ) : ℚ) + 1/2) * seg }

/-- The payout breakdown tuple returned by `compute_payout`
(source line 448): `(roll, base, mult, flair, raw, total, cap)`. -/
structure PayoutBreakdown where
  roll : ℤ
  base : ℚ
  mult : ℚ
  flair : ℚ
  raw : ℚ
  total : ℤ
  cap : ℤ

/-- The final-award step of `compute_payout` (source line 447):
`total = int(round(clamp(raw, MIN_PAYOUT, cap)))`. -/
def final_award (raw : ℚ) (cap : ℤ) : ℤ :=
  py_round (clamp raw (MIN_PAYOUT : ℚ) ((cap : ℤ) : ℚ))

/-- `compute_payout` (source lines 438–448), with the reactive reads made
explicit: the roll slider and the three flair checkboxes are inputs, the wheel
selection and tier come from the state. When no wheel selection exists the
code falls back to index 2 (`# default 1.0x`). Float arithmetic is idealised
as exact rational arithmetic; `int(round(...))` is `py_round`. -/
def compute_payout (roll : ℤ) (flair_pass flair_good flair_ex : Bool)
    (st : AppState) : PayoutBreakdown :=
  let base := roll_to_base_gold roll
  let idx : Fin 12 := st.selected_index.getD ⟨2, by decide⟩
  let mult := WHEEL_MULTS.getD (idx : ℕ) 0
  let flair := narrative_bonus_pct flair_pass flair_good flair_ex
  let raw := base * mult * (1 + flair)
  let tier : ℕ := st.tier_idx
  let cap : ℤ := py_round ((BASE_CAP : ℚ) * (1 + (10/100) * (tier : ℚ)))
  let total : ℤ := final_award raw cap
  { roll := roll, base := base, mult := mult, flair := flair,
    raw := raw, total := total, cap := cap }

/-- `fetch_stats` (source lines 132–145), success path: scan column 8 below
the header, summing every parseable value and counting it; unparseable cells
are skipped. A cell is modelled as `Option ℚ`: `some v` when `float(v)`
succeeds. The exception path of the scan itself is a `LedgerEnv.fetch_err`
below. -/
def fetch_stats (col : List (Option ℚ)) : ℚ × ℕ :=
  col.foldl
    (fun acc v =>
      match v with
      | some x => (acc.1 + x, acc.2 + 1)
      | none => acc)
    (0, 0)

/-- The environment a `refresh_stats` call runs against: exactly the branch
points of source lines 364–384 — `gspread` missing, a credential error from
`ensure_gspread_client`, an open error from `open_worksheet`, an exception in
`fetch_stats`, or a successful fetch of the award column. -/
inductive LedgerEnv where
  | no_gspread : LedgerEnv
  | cred_err (msg : String) : LedgerEnv
  | open_err (msg : String) : LedgerEnv
  | fetch_err (msg : String) : LedgerEnv
  | fetched (col : List (Option ℚ)) : LedgerEnv

/-- `refresh_stats` (source lines 364–384): on every failure branch only the
status message changes; the aggregates `agg_gold`, `agg_jobs` and the derived
`tier_idx` are assigned only when the fetch succeeds. -/
def refresh_stats (env : LedgerEnv) (st : AppState) : AppState :=
  match env with
  | .no_gspread => { st with gs_status_msg := "gspread not installed" }
  | .cred_err msg => { st with gs_status_msg := "❌ " ++ msg }
  | .open_err msg => { st with gs_status_msg := "❌ " ++ msg }
  | .fetch_err msg => { st with gs_status_msg := "❌ Fetch failed: " ++ msg }
  | .fetched col =>
      let p := fetch_stats col
      { st with
        gs_status_msg := "✅ Connected to Google Sheets",
        agg_gold := py_round p.1,
        agg_jobs := p.2,
        tier_idx := tier_for p.2 }

/-- A ledger row (`HEADERS`, source line 86): timestamp, note, roll, base
gold, wheel multiplier, narrative rate, raw pre-clamp total, final award. -/
structure ResultRecord where
  timestamp_iso : String
  note : String
  roll : ℤ
  base_gold : ℚ
  wheel_multiplier : ℚ
  narrative_pct : ℚ
  raw_total : ℚ
  final_award_gp : ℤ
deriving DecidableEq

/-- The app state together with the external ledger contents and a counter of
aggregate refreshes performed, so that "exactly one refresh" is expressible. -/
structure World where
  st : AppState
  ledger : List ResultRecord
  refreshes : ℕ

/-- An aggregate refresh against environment `env`: runs `refresh_stats` on
the app state and counts one refresh. -/
def do_refresh (env : LedgerEnv) (w : World) : World :=
  { w with st := refresh_stats env w.st, refreshes := w.refreshes + 1 }

/-- Errors of the save flow, per the spec's error taxonomy (§7). -/
inductive SaveError where
  | invalidState (msg : String) : SaveError
  | appendError (msg : String) : SaveError
deriving DecidableEq

/-- Modelled from the spec: the save handler itself is not in the provided
source — only the save button (`ui.input_action_button("save", ...)`, source
line 347) and the ledger helpers `append_result` (lines 125–130) and
`refresh_stats` (lines 364–384) are. Spec §4.4: `save` requires the
`selected` state and otherwise fails with `InvalidState("must spin before
saving")`; in `selected` state it builds a `ResultRecord` from the current
computed breakdown, the note and the timestamp, appends it to the ledger, and
on success triggers a full aggregate refresh; an append failure is surfaced
and mutates nothing. `appendErr` is the `Optional[str]` result of
`append_result`; `env` is the environment the triggered refresh runs
against. `mk_record` is the record built from the current breakdown. -/
def mk_record (ts note : String) (roll : ℤ)
    (flair_pass flair_good flair_ex : Bool) (st : AppState) : ResultRecord :=
  let b := compute_payout roll flair_pass flair_good flair_ex st
  { timestamp_iso := ts, note := note, roll := b.roll, base_gold := b.base,
    wheel_multiplier := b.mult, narrative_pct := b.flair,
    raw_total := b.raw, final_award_gp := b.total }

/-- Modelled from the spec (§4.4): the save action itself. In the `selected`
state it appends the record built by `mk_record` and, when the append
succeeds, triggers exactly one aggregate refresh; otherwise it fails with
`InvalidState` and changes nothing. -/
def save (w : World) (ts note : String) (roll : ℤ)
    (flair_pass flair_good flair_ex : Bool)
    (appendErr : Option String) (env : LedgerEnv) : World × Option SaveError :=
  match w.st.selected_index with
  | none => (w, some (.invalidState "must spin before saving"))
  | some _ =>
      let row := mk_record ts note roll flair_pass flair_good flair_ex w.st
      match appendErr with
      | some e => (w, some (.appendError e))
      | none => (do_refresh env { w with ledger := w.ledger ++ [row] }, none)

/-! ### Exact model of IEEE-754 binary64 rounding

Doubles are rationals; `toDouble q` is the binary64 value nearest to `q`
(ties to even significand), valid for the magnitudes appearing in this
program (far from overflow and subnormals). Used only for claims about float
evaluation. -/

/-- `2 ^ e` in `ℚ` for an integer exponent. -/
def pow2 (e : ℤ) : ℚ := (2 : ℚ) ^ e

/-- Fuelled search for the binade: starting from exponent `e`, step up while
`2 ^ (e+1) ≤ q`. -/
def expSearch (q : ℚ) : ℕ → ℤ → ℤ
  | 0, e => e
  | Nat.succ fuel, e => if pow2 (e + 1) ≤ q then expSearch q fuel (e + 1) else e

/-- `⌊log₂ q⌋` for `2 ^ (-30) ≤ q < 2 ^ 91`. -/
def floorLog2 (q : ℚ) : ℤ := expSearch q 120 (-30)

/-- Round a rational to the nearest binary64 value (53-bit significand, ties
to even), for magnitudes in the normal range. -/
def toDouble (q : ℚ) : ℚ :=
  if q = 0 then 0
  else
    let e := floorLog2 |q|
    let scale := pow2 (52 - e)
    (py_round (q * scale) : ℚ) / scale

/-- The cap computation `int(round(BASE_CAP * (1.0 + 0.10 * tier)))` (source
lines 446 and 468) evaluated in exact binary64 semantics: the literal `0.10`
is the double nearest 1/10, and every arithmetic operation rounds its exact
result to the nearest double. -/
def cap_float (tier : ℕ) : ℤ :=
  let c := toDouble (10/100)
  let p := toDouble (c * (tier : ℚ))
  let s := toDouble (1 + p)
  let m := toDouble ((BASE_CAP : ℚ) * s)
  py_round m

end MiniGoldSpinner

/-! ### Helper lemmas about `py_round` and `clamp` -/

namespace MiniGoldSpinner

theorem py_round_between (q : ℚ) : ⌊q⌋ ≤ py_round q ∧ py_round q ≤ ⌊q⌋ + 1 := by
  simp only [py_round]
  split_ifs <;> omega

theorem py_round_intCast (n : ℤ) : py_round ((n : ℤ) : ℚ) = n := by
  simp only [py_round, Int.floor_intCast, sub_self]
  norm_num

theorem py_round_mono {x y : ℚ} (h : x ≤ y) : py_round x ≤ py_round y := by
  have hf : ⌊x⌋ ≤ ⌊y⌋ := Int.floor_le_floor h
  rcases eq_or_lt_of_le hf with heq | hlt
  · have hr : x - (⌊x⌋ : ℚ) ≤ y - (⌊y⌋ : ℚ) := by
      rw [← heq]; linarith
    simp only [py_round, ← heq]
    split_ifs <;> first | omega | linarith
  · have h1 := (py_round_between x).2
    have h2 := (py_round_between y).1
    omega

theorem py_round_min_intCast (hi : ℤ) (x : ℚ) :
    py_round (min ((hi : ℤ) : ℚ) x) = min hi (py_round x) := by
  rcases le_total x ((hi : ℤ) : ℚ) with h | h
  · rw [min_eq_right h, min_eq_right]
    calc py_round x ≤ py_round ((hi : ℤ) : ℚ) := py_round_mono h
      _ = hi := py_round_intCast hi
  · rw [min_eq_left h, min_eq_left, py_round_intCast]
    calc (hi : ℤ) = py_round ((hi : ℤ) : ℚ) := (py_round_intCast hi).symm
      _ ≤ py_round x := py_round_mono h

theorem py_round_max_intCast (lo : ℤ) (x : ℚ) :
    py_round (max ((lo : ℤ) : ℚ) x) = max lo (py_round x) := by
  rcases le_total x ((lo : ℤ) : ℚ) with h | h
  · rw [max_eq_left h, max_eq_left, py_round_intCast]
    calc py_round x ≤ py_round ((lo : ℤ) : ℚ) := py_round_mono h
      _ = lo := py_round_intCast lo
  · rw [max_eq_right h, max_eq_right]
    calc (lo : ℤ) = py_round ((lo : ℤ) : ℚ) := (py_round_intCast lo).symm
      _ ≤ py_round x := py_round_mono h

/-- Rounding commutes with clamping to integer bounds. -/
theorem py_round_clamp_intCast (x : ℚ) (lo hi : ℤ) :
    py_round (clamp x ((lo : ℤ) : ℚ) ((hi : ℤ) : ℚ)) = clamp (py_round x) lo hi := by
  unfold clamp
  rw [py_round_max_intCast, py_round_min_intCast]

theorem py_round_int_bounds {lo hi : ℤ} {x : ℚ}
    (h1 : ((lo : ℤ) : ℚ) ≤ x) (h2 : x ≤ ((hi : ℤ) : ℚ)) :
    lo ≤ py_round x ∧ py_round x ≤ hi := by
  constructor
  · calc lo = py_round ((lo : ℤ) : ℚ) := (py_round_intCast lo).symm
      _ ≤ py_round x := py_round_mono h1
  · calc py_round x ≤ py_round ((hi : ℤ) : ℚ) := py_round_mono h2
      _ = hi := py_round_intCast hi

/-- The exact-arithmetic value of the cap expression of source line 446:
`round(250 * (1 + 0.10 * tier)) = 250 + 25 * tier`. -/
theorem cap_exact (t : ℕ) :
    py_round ((BASE_CAP : ℚ) * (1 + (10/100) * (t : ℚ))) = 250 + 25 * (t : ℤ) := by
  have h : ((BASE_CAP : ℚ) * (1 + (10/100) * (t : ℚ))) = (((250 + 25 * (t : ℤ)) : ℤ) : ℚ) := by
    simp only [BASE_CAP]
    push_cast
    ring
  rw [h, py_round_intCast]

end MiniGoldSpinner

/-! ### Shared bound lemmas for the award -/

namespace MiniGoldSpinner

/-- When `MIN_PAYOUT ≤ cap`, the final award lies between them. -/
theorem final_award_bounds (raw : ℚ) (cap : ℤ) (hc : MIN_PAYOUT ≤ cap) :
    MIN_PAYOUT ≤ final_award raw cap ∧ final_award raw cap ≤ cap := by
  unfold final_award clamp
  have h1 : ((MIN_PAYOUT : ℤ) : ℚ) ≤ max ((MIN_PAYOUT : ℤ) : ℚ) (min ((cap : ℤ) : ℚ) raw) :=
    le_max_left _ _
  have h2 : max ((MIN_PAYOUT : ℤ) : ℚ) (min ((cap : ℤ) : ℚ) raw) ≤ ((cap : ℤ) : ℚ) :=
    max_le (by exact_mod_cast hc) (min_le_left _ _)
  exact py_round_int_bounds h1 h2

end MiniGoldSpinner

/-! ### Claim theorems -/

namespace MiniGoldSpinner

/-- C2: for every base, multiplier, bonus rate and integer cap, the final
award computed by the program (`int(round(clamp(raw, MIN_PAYOUT, cap)))` with
`raw = base * multiplier * (1 + bonus_rate)`) equals
`max(MIN_PAYOUT, min(round(raw), cap))` — clamping before rounding is the
same as rounding before clamping since the bounds are integers — with
`MIN_PAYOUT = 50`, and when `cap < MIN_PAYOUT` the result is `MIN_PAYOUT`
(the lower bound is applied after the upper bound). -/
theorem final_award_round_clamp_order (base mult bonus : ℚ) (cap : ℤ) :
    final_award (base * mult * (1 + bonus)) cap
        = max MIN_PAYOUT (min (py_round (base * mult * (1 + bonus))) cap)
      ∧ MIN_PAYOUT = 50
      ∧ (cap < MIN_PAYOUT → final_award (base * mult * (1 + bonus)) cap = MIN_PAYOUT) := by
  have key : final_award (base * mult * (1 + bonus)) cap
      = clamp (py_round (base * mult * (1 + bonus))) MIN_PAYOUT cap := by
    unfold final_award
    exact py_round_clamp_intCast _ _ _
  refine ⟨?_, rfl, fun hlt => ?_⟩
  · rw [key]
    unfold clamp
    rw [min_comm]
  · rw [key]
    unfold clamp
    exact max_eq_left ((min_le_left _ _).trans hlt.le)

/-- Witness for C2 at `base = 100`, `mult = 1`, `bonus = 0`, `cap = 20`:
the pathological cap below `MIN_PAYOUT` yields `MIN_PAYOUT`. -/
theorem final_award_round_clamp_order_witness :
    (20 : ℤ) < MIN_PAYOUT ∧ final_award ((100 : ℚ) * 1 * (1 + 0)) 20 = MIN_PAYOUT :=
  ⟨by norm_num [MIN_PAYOUT],
   (final_award_round_clamp_order 100 1 0 20).2.2 (by norm_num [MIN_PAYOUT])⟩

/-- C3: for every payout computed by the program — any roll, any flag
combination, any selection state, any reachable tier in `[0, 9]` — the final
award satisfies `MIN_PAYOUT ≤ award ≤ cap`, and the tier's cap is at least
250, which exceeds `MIN_PAYOUT = 50`. -/
theorem compute_payout_award_within_cap
    (roll : ℤ) (fp fg fe : Bool) (st : AppState) (ht : st.tier_idx ≤ 9) :
    MIN_PAYOUT ≤ (compute_payout roll fp fg fe st).total
      ∧ (compute_payout roll fp fg fe st).total ≤ (compute_payout roll fp fg fe st).cap
      ∧ 250 ≤ (compute_payout roll fp fg fe st).cap := by
  have hcap : (compute_payout roll fp fg fe st).cap = 250 + 25 * (st.tier_idx : ℤ) :=
    cap_exact st.tier_idx
  have t0 : (0 : ℤ) ≤ (st.tier_idx : ℤ) := Int.natCast_nonneg _
  have h250 : 250 ≤ (compute_payout roll fp fg fe st).cap := by
    rw [hcap]; linarith
  have hc : MIN_PAYOUT ≤ (compute_payout roll fp fg fe st).cap := by
    simp only [MIN_PAYOUT]; linarith
  have hb := final_award_bounds
    ((compute_payout roll fp fg fe st).raw) ((compute_payout roll fp fg fe st).cap) hc
  exact ⟨hb.1, hb.2, h250⟩

/-- Witness for C3 at roll 15, no flags, the initial state (tier 0). -/
theorem compute_payout_award_within_cap_witness :
    MIN_PAYOUT ≤ (compute_payout 15 false false false initState).total
      ∧ (compute_payout 15 false false false initState).total
          ≤ (compute_payout 15 false false false initState).cap
      ∧ 250 ≤ (compute_payout 15 false false false initState).cap :=
  compute_payout_award_within_cap 15 false false false initState (by decide)

end MiniGoldSpinner

namespace MiniGoldSpinner

/-- C4: `base_gold(roll) = 50 + (clamp(roll,1,30) - 1) * 100/29` — the clamp
is applied before the linear map (roll 0 behaves as roll 1, roll 99 as
roll 30) — and for rolls in `[1, 30]` the base lies in `[50, 150]` and is
monotone non-decreasing in the roll. -/
theorem roll_to_base_gold_clamped_linear :
    (∀ roll : ℤ, roll_to_base_gold roll
        = 50 + (((clamp roll 1 30 : ℤ) : ℚ) - 1) * 100 / 29)
    ∧ roll_to_base_gold 0 = roll_to_base_gold 1
    ∧ roll_to_base_gold 99 = roll_to_base_gold 30
    ∧ (∀ roll : ℤ, 1 ≤ roll → roll ≤ 30 →
        50 ≤ roll_to_base_gold roll ∧ roll_to_base_gold roll ≤ 150)
    ∧ (∀ r s : ℤ, r ≤ s → roll_to_base_gold r ≤ roll_to_base_gold s) := by
  refine ⟨fun roll => rfl, ?_, ?_, ?_, ?_⟩
  · norm_num [roll_to_base_gold, clamp, min_def, max_def]
  · norm_num [roll_to_base_gold, clamp, min_def, max_def]
  · intro roll h1 h30
    have hc : clamp roll 1 30 = roll := by
      unfold clamp
      rw [min_eq_right h30, max_eq_right h1]
    simp only [roll_to_base_gold, hc]
    have q1 : (1 : ℚ) ≤ (roll : ℚ) := by exact_mod_cast h1
    have q30 : (roll : ℚ) ≤ 30 := by exact_mod_cast h30
    constructor <;> nlinarith
  · intro r s h
    have hc : clamp r 1 30 ≤ clamp s 1 30 := by
      unfold clamp
      exact max_le_max le_rfl (min_le_min le_rfl h)
    have hq : ((clamp r 1 30 : ℤ) : ℚ) ≤ ((clamp s 1 30 : ℤ) : ℚ) := by exact_mod_cast hc
    simp only [roll_to_base_gold]
    linarith

/-- Witness for C4 at roll 15: the base lies within `[50, 150]`. -/
theorem roll_to_base_gold_witness :
    50 ≤ roll_to_base_gold 15 ∧ roll_to_base_gold 15 ≤ 150 :=
  roll_to_base_gold_clamped_linear.2.2.2.1 15 (by norm_num) (by norm_num)

/-- C5: the reputation tier is `min(job_count // 5, 9)`: always in `[0, 9]`,
monotone non-decreasing in the job count, with
`tier(0) = 0`, `tier(4) = 0`, `tier(5) = 1`, `tier(49) = 9`,
`tier(1000) = 9`. -/
theorem tier_for_min_div_five :
    (∀ jobs : ℕ, tier_for jobs = min (jobs / 5) 9)
    ∧ (∀ jobs : ℕ, tier_for jobs ≤ 9)
    ∧ (∀ j1 j2 : ℕ, j1 ≤ j2 → tier_for j1 ≤ tier_for j2)
    ∧ tier_for 0 = 0 ∧ tier_for 4 = 0 ∧ tier_for 5 = 1
    ∧ tier_for 49 = 9 ∧ tier_for 1000 = 9 := by
  refine ⟨fun _ => rfl, fun _ => min_le_right _ _, ?_, rfl, rfl, rfl, rfl, rfl⟩
  intro j1 j2 h
  exact min_le_min (Nat.div_le_div_right h) le_rfl

/-- Witness for C5: monotonicity applied at `3 ≤ 7`. -/
theorem tier_for_min_div_five_witness : tier_for 3 ≤ tier_for 7 :=
  tier_for_min_div_five.2.2.1 3 7 (by norm_num)

/-- C6: for every combination of the three narrative flags, the bonus rate is
the maximum selected rate — `0.25` dominating `0.15` dominating `0.10` — and
`0` when no flag is selected, so it always lies in
`{0, 0.10, 0.15, 0.25}` and rates are never summed. -/
theorem narrative_bonus_max_policy :
    ∀ fp fg fe : Bool,
      narrative_bonus_pct fp fg fe
          = (if fe then 25/100 else if fg then 15/100 else if fp then 10/100 else 0)
      ∧ (narrative_bonus_pct fp fg fe = 0 ∨ narrative_bonus_pct fp fg fe = 10/100
          ∨ narrative_bonus_pct fp fg fe = 15/100
          ∨ narrative_bonus_pct fp fg fe = 25/100) := by
  intro fp fg fe
  cases fp <;> cases fg <;> cases fe <;>
    exact ⟨by norm_num [narrative_bonus_pct, max_def], by norm_num [narrative_bonus_pct, max_def]⟩

/-- C7: before any spin (`selected_index` is `None`), `compute_payout` uses
the documented placeholder index 2 of `WHEEL_MULTS`, whose multiplier is 1.0,
so the payout is defined at any time. -/
theorem compute_payout_default_multiplier
    (roll : ℤ) (fp fg fe : Bool) (st : AppState) (h : st.selected_index = none) :
    (compute_payout roll fp fg fe st).mult = WHEEL_MULTS.getD 2 0
      ∧ WHEEL_MULTS.getD 2 0 = 1 := by
  constructor
  · simp [compute_payout, h]
  · rfl

/-- Witness for C7 at the initial state, roll 15, no flags. -/
theorem compute_payout_default_multiplier_witness :
    (compute_payout 15 false false false initState).mult = WHEEL_MULTS.getD 2 0
      ∧ WHEEL_MULTS.getD 2 0 = 1 :=
  compute_payout_default_multiplier 15 false false false initState rfl

/-- C8: whenever the aggregate refresh fails at any stage — `gspread`
missing, credential error, worksheet-open error, or fetch error — the held
aggregates `agg_gold`, `agg_jobs` and the derived `tier_idx` are left
unchanged (stale-read policy); they are assigned, from the fetched column,
only on success. -/
theorem refresh_stats_stale_on_failure :
    (∀ st : AppState,
        (refresh_stats .no_gspread st).agg_gold = st.agg_gold
        ∧ (refresh_stats .no_gspread st).agg_jobs = st.agg_jobs
        ∧ (refresh_stats .no_gspread st).tier_idx = st.tier_idx)
    ∧ (∀ (st : AppState) (m : String),
        (refresh_stats (.cred_err m) st).agg_gold = st.agg_gold
        ∧ (refresh_stats (.cred_err m) st).agg_jobs = st.agg_jobs
        ∧ (refresh_stats (.cred_err m) st).tier_idx = st.tier_idx)
    ∧ (∀ (st : AppState) (m : String),
        (refresh_stats (.open_err m) st).agg_gold = st.agg_gold
        ∧ (refresh_stats (.open_err m) st).agg_jobs = st.agg_jobs
        ∧ (refresh_stats (.open_err m) st).tier_idx = st.tier_idx)
    ∧ (∀ (st : AppState) (m : String),
        (refresh_stats (.fetch_err m) st).agg_gold = st.agg_gold
        ∧ (refresh_stats (.fetch_err m) st).agg_jobs = st.agg_jobs
        ∧ (refresh_stats (.fetch_err m) st).tier_idx = st.tier_idx)
    ∧ (∀ (st : AppState) (col : List (Option ℚ)),
        (refresh_stats (.fetched col) st).agg_gold = py_round (fetch_stats col).1
        ∧ (refresh_stats (.fetched col) st).agg_jobs = (fetch_stats col).2
        ∧ (refresh_stats (.fetched col) st).tier_idx = tier_for (fetch_stats col).2) :=
  ⟨fun _ => ⟨rfl, rfl, rfl⟩, fun _ _ => ⟨rfl, rfl, rfl⟩, fun _ _ => ⟨rfl, rfl, rfl⟩,
   fun _ _ => ⟨rfl, rfl, rfl⟩, fun _ _ => ⟨rfl, rfl, rfl⟩⟩

end MiniGoldSpinner

namespace MiniGoldSpinner

/-- C10: every spin stores a drawn index in `[0, 11]` over the fixed
12-element multiplier set as the current selection (the randomness is passed
in as a parameter ranging over the draw's 12 equiprobable outcomes, which the
handler stores unchanged), sets the display rotation to
`k*360 + (index + 0.5)*(360/12)` degrees for some integer `k` in `[4, 7]`,
and the stored index is the one fed into the payout computation. -/
theorem spin_selects_index_and_angle (st : AppState) (idx : Fin 12) (k : Fin 4) :
    (spinHandler st idx k).selected_index = some idx
    ∧ (idx : ℕ) < 12
    ∧ (∃ kk : ℤ, 4 ≤ kk ∧ kk ≤ 7 ∧
        (spinHandler st idx k).last_angle
          = (kk : ℚ) * 360 + (((idx : ℕ) : ℚ) + 1/2) * (360 / 12))
    ∧ ∀ (roll : ℤ) (fp fg fe : Bool),
        (compute_payout roll fp fg fe (spinHandler st idx k)).mult
          = WHEEL_MULTS.getD (idx : ℕ) 0 := by
  have hk := k.isLt
  refine ⟨rfl, idx.isLt,
    ⟨4 + (k : ℕ), by omega, by omega, ?_⟩, fun roll fp fg fe => ?_⟩
  · simp only [spinHandler, WHEEL_MULTS]
    push_cast
    norm_num
  · simp [compute_payout, spinHandler]

/-- C1: calling save with no wheel selection made fails with
`InvalidState("must spin before saving")` and appends nothing; after a spin,
save builds the `ResultRecord` from the current computed breakdown, appends
it to the ledger, and on success performs exactly one aggregate refresh. -/
theorem save_state_machine
    : (∀ (w : World) (ts note : String) (roll : ℤ) (fp fg fe : Bool)
         (ae : Option String) (env : LedgerEnv),
        w.st.selected_index = none →
          save w ts note roll fp fg fe ae env
            = (w, some (.invalidState "must spin before saving")))
    ∧ (∀ (w : World) (ts note : String) (roll : ℤ) (fp fg fe : Bool)
         (env : LedgerEnv) (i : Fin 12),
        w.st.selected_index = some i →
          (save w ts note roll fp fg fe none env).2 = none
          ∧ (save w ts note roll fp fg fe none env).1.ledger
              = w.ledger ++ [mk_record ts note roll fp fg fe w.st]
          ∧ (save w ts note roll fp fg fe none env).1.refreshes = w.refreshes + 1
          ∧ (save w ts note roll fp fg fe none env).1.st = refresh_stats env w.st) := by
  constructor
  · intro w ts note roll fp fg fe ae env h
    simp only [save, h]
  · intro w ts note roll fp fg fe env i h
    simp [save, h, do_refresh]

/-- Witness for C1: in the fresh world save fails with `InvalidState` and
changes nothing; after a spin selecting index 0, a successful save counts
exactly one refresh. -/
theorem save_state_machine_witness :
    save ⟨initState, [], 0⟩ "2026-01-01T00:00:00" "" 15 false false false none .no_gspread
        = (⟨initState, [], 0⟩, some (.invalidState "must spin before saving"))
    ∧ (save ⟨{ initState with selected_index := some ⟨0, by norm_num⟩ }, [], 0⟩
          "2026-01-01T00:00:00" "" 15 false false false none .no_gspread).1.refreshes = 1 := by
  constructor
  · exact save_state_machine.1 ⟨initState, [], 0⟩ "2026-01-01T00:00:00" "" 15
      false false false none .no_gspread rfl
  · have h := (save_state_machine.2
      ⟨{ initState with selected_index := some ⟨0, by norm_num⟩ }, [], 0⟩
      "2026-01-01T00:00:00" "" 15 false false false .no_gspread ⟨0, by norm_num⟩ rfl).2.2.1
    simpa using h

end MiniGoldSpinner

namespace MiniGoldSpinner

set_option maxHeartbeats 3200000 in
/-- C9: for every reputation tier `t` in `[0, 9]`, the cap computed by the
program in binary64 float arithmetic — `int(round(250 * (1.0 + 0.10 * t)))`,
modelled exactly by `cap_float` — agrees with the exact-arithmetic
`round(250 * (1 + 0.10 * t)) = 250 + 25 * t`; in particular
`cap(0) = 250`, `cap(1) = 275` and `cap(9) = 475`. -/
theorem cap_float_matches_exact :
    (∀ t : ℕ, t ≤ 9 →
        cap_float t = py_round ((BASE_CAP : ℚ) * (1 + (10/100) * (t : ℚ)))
        ∧ cap_float t = 250 + 25 * (t : ℤ))
    ∧ cap_float 0 = 250 ∧ cap_float 1 = 275 ∧ cap_float 9 = 475 := by
  have key : ∀ t : ℕ, t ≤ 9 → cap_float t = 250 + 25 * (t : ℤ) := by
    intro t ht
    interval_cases t <;>
      norm_num [cap_float, toDouble, floorLog2, expSearch, pow2, py_round, BASE_CAP, abs_of_pos]
  refine ⟨fun t ht => ⟨?_, key t ht⟩, ?_, ?_, ?_⟩
  · rw [cap_exact t]
    exact key t ht
  · have h := key 0 (by norm_num)
    simpa using h
  · have h := key 1 (by norm_num)
    norm_num at h
    exact h
  · have h := key 9 (by norm_num)
    norm_num at h
    exact h

/-- Witness for C9 at tier 1. -/
theorem cap_float_matches_exact_witness :
    cap_float 1 = 250 + 25 * ((1 : ℕ) : ℤ) :=
  (cap_float_matches_exact.1 1 (by norm_num)).2

end MiniGoldSpinner
